import Mathlib

/-!
Verification of the ScrapeCreators Reddit search client
(`src/scrapecreator_api/reddit_search.py`, `src/scrapecreator_api/response_models.py`).

The Python client is embedded shallowly:
* JSON field values occurring in per-post records are modelled by the atomic
  `JValue` type; a raw per-post object is an association list
  `List (String × JValue)` (`dict.get` becomes `pyGet`).
* Python values passed as query modifiers are modelled by `PyVal`, with
  `pyStr` mirroring Python `str()` (note `str(True) = "True"`).
* The HTTP transport is abstracted: one upstream interaction is an
  `HttpOutcome` for the single-request method `_raw_search`, and the paginated
  `search` method consumes a finite script of page results, one per upstream
  call, mirroring the mocked transports used by the repository's test suite.
* Exceptions become the `RSError` sum; fallible code returns `Except`.
* System-dependent pieces (`os.path.expanduser`, timestamp formatting, the
  generated file name) are passed in as explicit parameters.
-/

/-- Atomic JSON value as it appears in a per-post field. -/
inductive JValue where
  | null : JValue
  | bool (b : Bool) : JValue
  | num (n : Int) : JValue
  | str (s : String) : JValue
deriving DecidableEq, Repr

/-- Python `dict.get(key, default)` on an association list. -/
def pyGet (d : List (String × JValue)) (k : String) (dflt : JValue) : JValue :=
  match d.find? (fun kv => kv.1 = k) with
  | some kv => kv.2
  | none => dflt

/-- A Python value usable as a search modifier. -/
inductive PyVal where
  | vBool (b : Bool) : PyVal
  | vStr (s : String) : PyVal
  | vInt (n : Int) : PyVal
deriving DecidableEq, Repr

/-- Python `str()` on a modifier value; booleans render capitalized. -/
def pyStr : PyVal → String
  | PyVal.vBool true => "True"
  | PyVal.vBool false => "False"
  | PyVal.vStr s => s
  | PyVal.vInt n => toString n

/-- `RedditPost` (response_models.py): the normalized view of one post, plus
the verbatim raw item. Field values stay as the raw JSON values that
`data.get` returns, with the defaults the source supplies. -/
structure RedditPost where
  id : JValue
  subreddit : JValue
  title : JValue
  selftext : JValue
  author : JValue
  score : JValue
  upvoteRate : JValue
  num_comments : JValue
  created_utc : JValue
  url : JValue
  permalink : JValue
  is_self : JValue
  is_video : JValue
  created_at_iso : JValue
  raw_data : List (String × JValue)
deriving DecidableEq, Repr

/-- `RedditPost.from_api_response`: extract the fixed fields with the
defaults from the source (`data.get("id", "")`, `data.get("selftext")`, ...).
`isoOf` stands for `datetime.fromtimestamp(...).isoformat()`. -/
def fromApiResponse (isoOf : JValue → String) (data : List (String × JValue)) :
    RedditPost :=
  { id := pyGet data "id" (JValue.str "")
    subreddit := pyGet data "subreddit" (JValue.str "")
    title := pyGet data "title" (JValue.str "")
    selftext := pyGet data "selftext" JValue.null
    author := pyGet data "author" (JValue.str "")
    score := pyGet data "score" (JValue.num 0)
    upvoteRate := pyGet data "upvote_ratio" (JValue.num 0)
    num_comments := pyGet data "num_comments" (JValue.num 0)
    created_utc := pyGet data "created_utc" (JValue.num 0)
    url := pyGet data "url" (JValue.str "")
    permalink := pyGet data "permalink" (JValue.str "")
    is_self := pyGet data "is_self" (JValue.bool false)
    is_video := pyGet data "is_video" (JValue.bool false)
    created_at_iso := JValue.str (isoOf (pyGet data "created_utc" (JValue.num 0)))
    raw_data := data }

/-- Convenience constructor for a distinct concrete post used in examples. -/
def mkPost (n : Int) : RedditPost :=
  fromApiResponse (fun _ => "") [("id", JValue.num n)]

/-- The error taxonomy of `reddit_search.py`: `ValueError` from validation,
plus the four `RedditSearchError` kinds. -/
inductive RSError where
  | validation (msg : String) : RSError
  | connection (msg : String) : RSError
  | authentication (msg : String) : RSError
  | api (statusCode : Int) (message : String) : RSError
  | generic (msg : String) : RSError
deriving DecidableEq, Repr

/-- Whether an error is the pre-network validation kind. -/
def RSError.isValidation : RSError → Bool
  | RSError.validation _ => true
  | _ => false

/-- Outcome of one `self.client.get(...)` call, as observed inside
`_raw_search`: either an HTTP response arrived (with status, text body and
the result of `.json()` parsing), or the call raised. -/
inductive HttpOutcome where
  | response (statusCode : Int) (text : String) (body : Except String (List (String × JValue))) : HttpOutcome
  | connectError (msg : String) : HttpOutcome
  | requestError (msg : String) : HttpOutcome
  | otherError (msg : String) : HttpOutcome
deriving Repr

/-- `RedditSearch._raw_search` error handling (lines 207-231): 401 first,
then any non-200, then `httpx.ConnectError` / `httpx.RequestError`, and a
catch-all wrap of any other exception. -/
def rawSearchResult (o : HttpOutcome) : Except RSError (List (String × JValue)) :=
  match o with
  | HttpOutcome.response statusCode text body =>
    if statusCode = 401 then
      Except.error (RSError.authentication "Invalid API key")
    else if statusCode ≠ 200 then
      Except.error (RSError.api statusCode text)
    else
      match body with
      | Except.ok j => Except.ok j
      | Except.error m =>
        Except.error (RSError.generic ("An unexpected error occurred: " ++ m))
  | HttpOutcome.connectError m =>
    Except.error (RSError.connection ("Failed to connect to the API: " ++ m))
  | HttpOutcome.requestError m =>
    Except.error (RSError.connection ("Request error: " ++ m))
  | HttpOutcome.otherError m =>
    Except.error (RSError.generic ("An unexpected error occurred: " ++ m))

def VALID_SORT_OPTIONS : List String := ["relevance", "new", "top", "comment_count"]

def VALID_TIMEFRAME_OPTIONS : List String := ["all", "day", "week", "month", "year"]

def VALID_RETURN_MODES : List String := ["inline", "file"]

/-- `RedditSearch._validate_parameters`: membership checks in source order,
raising `ValueError` (modelled as `RSError.validation`). -/
def validateParameters (sort timeframe return_mode : String) : Except RSError Unit :=
  if sort ∉ VALID_SORT_OPTIONS then
    Except.error (RSError.validation ("Invalid sort option: " ++ sort ++
      ". Valid options are: " ++ String.intercalate ", " VALID_SORT_OPTIONS))
  else if timeframe ∉ VALID_TIMEFRAME_OPTIONS then
    Except.error (RSError.validation ("Invalid timeframe option: " ++ timeframe ++
      ". Valid options are: " ++ String.intercalate ", " VALID_TIMEFRAME_OPTIONS))
  else if return_mode ∉ VALID_RETURN_MODES then
    Except.error (RSError.validation ("Invalid return mode: " ++ return_mode ++
      ". Valid options are: " ++ String.intercalate ", " VALID_RETURN_MODES))
  else
    Except.ok ()

/-- ASCII lowering of one character, as Python `str.lower()` does it on the
ASCII range. -/
def lowerChar (c : Char) : Char :=
  if 'A' ≤ c ∧ c ≤ 'Z' then Char.ofNat (c.toNat + 32) else c

/-- Python `str.lower()` (ASCII range). -/
def pyLower (s : String) : String := String.mk (s.data.map lowerChar)

/-- `RedditSearch._build_query_string` body of the modifier loop: `title` and
`selftext` values are quoted, the key `self` gets `str(value).lower()`, and
every other key gets the plain `str(value)`. -/
def formatModifier (kv : String × PyVal) : String :=
  if kv.1 = "title" ∨ kv.1 = "selftext" then
    kv.1 ++ ":\"" ++ pyStr kv.2 ++ "\""
  else if kv.1 = "self" then
    kv.1 ++ ":" ++ pyLower (pyStr kv.2)
  else
    kv.1 ++ ":" ++ pyStr kv.2

/-- `RedditSearch._build_query_string`: wildcard for an empty base query,
then the formatted modifiers in mapping iteration order, joined by " AND ". -/
def buildQueryString (baseQuery : String) (modifiers : List (String × PyVal)) : String :=
  let queryParts := if baseQuery = "" then ["*"] else [baseQuery]
  let allParts := queryParts ++ modifiers.map formatModifier
  String.intercalate " AND " allParts

/-- One parsed page of the upstream response, as `search` consumes it: the
item list the page yielded and the pagination cursor
`response_data["data"]["after"]` (absent or any value; `None` is `none`).
Items are typed here as already-parsed `RedditPost`s, an abstraction that
serves the loop-control and state claims, where items are opaque payloads;
in the source the items of `parsed_response.posts` are raw JSON dicts
(a pydantic extra field) — `RawPage` and `searchFlow` below keep that
per-item behavior faithful. -/
structure Page where
  posts : List RedditPost
  after : Option String
deriving Repr

/-- Python truthiness of the optional cursor: `None` and `""` are falsy. -/
def truthyOptStr : Option String → Bool
  | none => false
  | some s => s ≠ ""

/-- Python truthiness of `max_results` in `if max_results and ...`:
`None` and `0` are falsy. -/
def capHitB : Option Int → Nat → Bool
  | none, _ => false
  | some m, total => decide (m ≠ 0) && decide (m ≤ (total : Int))

/-- Python slice `l[:m]` for an integer bound (negative bounds count from
the end, clamped at zero). -/
def pySliceTo {α : Type} (l : List α) (m : Int) : List α :=
  if 0 ≤ m then l.take m.toNat else l.take (l.length - Int.toNat (-m))

/-- Decidable equality of `Except` results, for evaluating outcomes on
concrete inputs. -/
instance exceptDecEq {ε α : Type} [DecidableEq ε] [DecidableEq α] :
    DecidableEq (Except ε α) := fun a b =>
  match a, b with
  | Except.ok x, Except.ok y =>
    if h : x = y then isTrue (by rw [h])
    else isFalse (fun hx => by injection hx; contradiction)
  | Except.ok _, Except.error _ => isFalse (fun hx => by injection hx)
  | Except.error _, Except.ok _ => isFalse (fun hx => by injection hx)
  | Except.error x, Except.error y =>
    if h : x = y then isTrue (by rw [h])
    else isFalse (fun hx => by injection hx; contradiction)

/-- The pagination loop of `RedditSearch.search` (lines 278-304), run
against a finite script of upstream call outcomes (one entry per call, as
with a mocked transport). Returns the loop result and the number of
upstream calls issued. An exhausted script stands for a transport that
cannot answer a further call. -/
def searchLoop : List (Except RSError Page) → Option Int → List RedditPost →
    Nat → Nat → Except RSError (List RedditPost) × Nat
  | [], _, _, _, calls =>
    (Except.error (RSError.generic "An unexpected error occurred: upstream exhausted"), calls)
  | r :: rest, maxResults, acc, total, calls =>
    match r with
    | Except.error e => (Except.error e, calls + 1)
    | Except.ok page =>
      if capHitB maxResults (total + page.posts.length) then
        (Except.ok (pySliceTo (acc ++ page.posts) (maxResults.getD 0)), calls + 1)
      else if truthyOptStr page.after = false ∨ page.posts = [] then
        (Except.ok (acc ++ page.posts), calls + 1)
      else
        searchLoop rest maxResults (acc ++ page.posts) (total + page.posts.length) (calls + 1)

/-- The client state that persists across calls: `self.output_dir`. -/
structure ClientState where
  output_dir : String
deriving DecidableEq, Repr

/-- Arguments of one `RedditSearch.search` call. -/
structure SearchArgs where
  query : String
  sort : String
  timeframe : String
  return_mode : String
  max_results : Option Int
  output_dir : Option String
  modifiers : List (String × PyVal)
deriving Repr

/-- `SearchResponse` (response_models.py). -/
structure SearchResponseM where
  success : Bool
  count : Nat
  posts : Option (List RedditPost)
  file_path : Option String
deriving DecidableEq, Repr

/-- Everything observable about one `search` call: its return value or
exception, the client state after the call, the number of upstream HTTP
calls issued, and the file write performed in file mode (path and the
records serialized). -/
structure SearchOutcome where
  result : Except RSError SearchResponseM
  finalState : ClientState
  calls : Nat
  written : Option (String × List (List (String × JValue)))
deriving DecidableEq, Repr

/-- Python truthiness of the optional `output_dir` argument. -/
def truthyArg : Option String → Bool
  | none => false
  | some s => s ≠ ""

/-- `RedditSearch.search` (lines 233-328): validate, transiently override
`self.output_dir`, paginate via `searchLoop`, then sink per `return_mode`;
the `finally` block restores the original directory on every exit path.
`expandUser` models `os.path.expanduser`, `genFilename` the generated
results file name. The sinks here are idealized — items are treated as
parsed posts and serialization as total — which suffices for the
loop/cap/call-count/state claims; `searchFlow` below models the source's
actual per-item behavior in both sinks. -/
def search (st : ClientState) (expandUser : String → String) (a : SearchArgs)
    (script : List (Except RSError Page)) (genFilename : String) : SearchOutcome :=
  match validateParameters a.sort a.timeframe a.return_mode with
  | Except.error e =>
    { result := Except.error e, finalState := st, calls := 0, written := none }
  | Except.ok _ =>
    let originalDir := st.output_dir
    let working : ClientState :=
      if truthyArg a.output_dir then
        { output_dir := expandUser (a.output_dir.getD "") }
      else st
    let restored : ClientState :=
      if truthyArg a.output_dir then
        { working with output_dir := originalDir }
      else working
    match searchLoop script a.max_results [] 0 0 with
    | (Except.error e, calls) =>
      { result := Except.error e, finalState := restored, calls := calls, written := none }
    | (Except.ok allResults, calls) =>
      if a.return_mode = "file" then
        let records := allResults.map (fun p => p.raw_data)
        let filePath := working.output_dir ++ "/" ++ genFilename
        { result := Except.ok
            { success := true, count := allResults.length,
              posts := none, file_path := some filePath },
          finalState := restored, calls := calls,
          written := some (filePath, records) }
      else
        { result := Except.ok
            { success := true, count := allResults.length,
              posts := some allResults, file_path := none },
          finalState := restored, calls := calls, written := none }

/-- Default argument bundle used by concrete examples below. -/
def defaultArgs : SearchArgs :=
  { query := "test", sort := "relevance", timeframe := "all",
    return_mode := "inline", max_results := none, output_dir := none,
    modifiers := [] }

/-- A concrete client state for examples. -/
def st0 : ClientState := { output_dir := "/home/u" }

/-- The two-page mocked upstream of the spec's pagination test: page 1
yields two items and cursor `c1`, page 2 yields two items and no cursor. -/
def twoPages : List (Except RSError Page) :=
  [Except.ok { posts := [mkPost 1, mkPost 2], after := some "c1" },
   Except.ok { posts := [mkPost 3, mkPost 4], after := none }]

/-- File-mode variant of the default arguments. -/
def fileArgs : SearchArgs := { defaultArgs with return_mode := "file" }

/-- A one-page mocked upstream with a single item and no cursor. -/
def onePage : List (Except RSError Page) :=
  [Except.ok { posts := [mkPost 9], after := none }]

/-- A raw per-post item exactly as it flows through the source's `search`:
a plain JSON object from `response.json()`. `parsed_response.posts`
(reddit_search.py lines 288-289) is a pydantic extra field of
`RedditSearchRawResponse`, so the collected items stay raw dicts and
`RedditPost.from_api_response` is never invoked on them. -/
abbrev RawPost := List (String × JValue)

/-- One parsed page with its items kept raw, as the source actually holds
them. -/
structure RawPage where
  posts : List RawPost
  after : Option String
deriving DecidableEq, Repr

/-- The same pagination loop as `searchLoop` (reddit_search.py lines
278-304, identical control flow) with the page items kept as the raw JSON
objects the source collects. -/
def searchLoopRaw : List (Except RSError RawPage) → Option Int → List RawPost →
    Nat → Nat → Except RSError (List RawPost) × Nat
  | [], _, _, _, calls =>
    (Except.error (RSError.generic "An unexpected error occurred: upstream exhausted"), calls)
  | r :: rest, maxResults, acc, total, calls =>
    match r with
    | Except.error e => (Except.error e, calls + 1)
    | Except.ok page =>
      if capHitB maxResults (total + page.posts.length) then
        (Except.ok (pySliceTo (acc ++ page.posts) (maxResults.getD 0)), calls + 1)
      else if truthyOptStr page.after = false ∨ page.posts = [] then
        (Except.ok (acc ++ page.posts), calls + 1)
      else
        searchLoopRaw rest maxResults (acc ++ page.posts) (total + page.posts.length) (calls + 1)

/-- The `RedditPost` fields pydantic requires with no default
(response_models.py lines 12-25): every declared field except `selftext`
(defaults to `None`) and `raw_data` (defaults to the empty dict).
`created_at_iso` is among the required ones — the raw item itself must
carry it, since the search flow never derives it. -/
def requiredRedditPostFields : List String :=
  ["id", "subreddit", "title", "author", "score", "upvote_ratio",
   "num_comments", "created_utc", "url", "permalink", "is_self",
   "is_video", "created_at_iso"]

/-- Pydantic validation of one raw item against the declared `RedditPost`
schema, as `SearchResponse(posts=all_results)` triggers it: every required
field must be present, with no default applied; on success the declared
fields are read off the item, `selftext` defaulting to `None` and
`raw_data` to the empty dict. The error carries the missing field names.
(Per-value type coercion is not modelled; the claims exercise presence.) -/
def validateRedditPost (d : RawPost) : Except (List String) RedditPost :=
  let missing := requiredRedditPostFields.filter
    (fun k => d.find? (fun kv => kv.1 = k) = none)
  if missing = [] then
    Except.ok
      { id := pyGet d "id" JValue.null
        subreddit := pyGet d "subreddit" JValue.null
        title := pyGet d "title" JValue.null
        selftext := pyGet d "selftext" JValue.null
        author := pyGet d "author" JValue.null
        score := pyGet d "score" JValue.null
        upvoteRate := pyGet d "upvote_ratio" JValue.null
        num_comments := pyGet d "num_comments" JValue.null
        created_utc := pyGet d "created_utc" JValue.null
        url := pyGet d "url" JValue.null
        permalink := pyGet d "permalink" JValue.null
        is_self := pyGet d "is_self" JValue.null
        is_video := pyGet d "is_video" JValue.null
        created_at_iso := pyGet d "created_at_iso" JValue.null
        raw_data := [] }
  else
    Except.error missing

/-- `SearchResponse(posts=all_results)` validation over the whole item
list; aborts at the first invalid item (pydantic collects all failures,
but only the abort is observable through the claims). -/
def validateAllPosts : List RawPost → Except (List String) (List RedditPost)
  | [] => Except.ok []
  | d :: rest =>
    match validateRedditPost d with
    | Except.error m => Except.error m
    | Except.ok p =>
      match validateAllPosts rest with
      | Except.error m => Except.error m
      | Except.ok ps => Except.ok (p :: ps)

/-- Everything a `search` call can raise in the source: the client's own
error kinds, plus the raw exceptions the sinks can leak — `AttributeError`
from `post.raw_data` on a dict item (line 310) and pydantic's validation
failure from `SearchResponse(posts=...)` — which the `try/finally` does
not catch. -/
inductive FlowError where
  | client (e : RSError) : FlowError
  | attributeError (attrName : String) : FlowError
  | validationError (missing : List String) : FlowError
deriving DecidableEq, Repr

/-- Observable outcome of one faithful `search` call. -/
structure SearchFlowOutcome where
  result : Except FlowError SearchResponseM
  finalState : ClientState
  calls : Nat
  written : Option (String × List RawPost)
deriving DecidableEq, Repr

/-- `RedditSearch.search` with the source's per-item behavior kept
faithful. The loop collects raw dicts. In file mode the comprehension
`[post.raw_data for post in all_results]` (line 310) raises
`AttributeError` on the first dict item, so any nonempty result aborts
before anything is written and only an empty result reaches the file. In
inline mode `SearchResponse(posts=all_results)` pydantic-validates every
item, so an item missing a required field aborts the whole search. The
`finally` restore runs on every path. -/
def searchFlow (st : ClientState) (expandUser : String → String) (a : SearchArgs)
    (script : List (Except RSError RawPage)) (genFilename : String) : SearchFlowOutcome :=
  match validateParameters a.sort a.timeframe a.return_mode with
  | Except.error e =>
    { result := Except.error (FlowError.client e), finalState := st,
      calls := 0, written := none }
  | Except.ok _ =>
    let originalDir := st.output_dir
    let working : ClientState :=
      if truthyArg a.output_dir then
        { output_dir := expandUser (a.output_dir.getD "") }
      else st
    let restored : ClientState :=
      if truthyArg a.output_dir then
        { working with output_dir := originalDir }
      else working
    match searchLoopRaw script a.max_results [] 0 0 with
    | (Except.error e, calls) =>
      { result := Except.error (FlowError.client e), finalState := restored,
        calls := calls, written := none }
    | (Except.ok allResults, calls) =>
      if a.return_mode = "file" then
        match allResults with
        | [] =>
          let filePath := working.output_dir ++ "/" ++ genFilename
          { result := Except.ok
              { success := true, count := 0, posts := none,
                file_path := some filePath },
            finalState := restored, calls := calls,
            written := some (filePath, []) }
        | _ :: _ =>
          { result := Except.error (FlowError.attributeError "raw_data"),
            finalState := restored, calls := calls, written := none }
      else
        match validateAllPosts allResults with
        | Except.error missing =>
          { result := Except.error (FlowError.validationError missing),
            finalState := restored, calls := calls, written := none }
        | Except.ok posts =>
          { result := Except.ok
              { success := true, count := allResults.length,
                posts := some posts, file_path := none },
            finalState := restored, calls := calls, written := none }

/-- A one-item raw page whose item carries only an `id` — missing every
other required field. -/
def sparsePage : List (Except RSError RawPage) :=
  [Except.ok { posts := [[("id", JValue.str "abc")]], after := none }]

/-- A raw item carrying every field the `RedditPost` schema requires
(values as in the repository's test fixture). -/
def fullItem : RawPost :=
  [("id", JValue.str "abc123"), ("subreddit", JValue.str "test"),
   ("title", JValue.str "Test Post"), ("selftext", JValue.str "Test Content"),
   ("author", JValue.str "testuser"), ("score", JValue.num 42),
   ("upvote_ratio", JValue.num 1), ("num_comments", JValue.num 10),
   ("created_utc", JValue.num 1234567890),
   ("url", JValue.str "https://reddit.com/r/test/comments/abc123"),
   ("permalink", JValue.str "/r/test/comments/abc123"),
   ("is_self", JValue.bool true), ("is_video", JValue.bool false),
   ("created_at_iso", JValue.str "2009-02-13T23:31:30")]

/-- An upstream of one raw page with no items and no cursor. -/
def emptyRawPage : List (Except RSError RawPage) :=
  [Except.ok { posts := [], after := none }]

/-- An upstream of one raw page holding the single fully-populated item. -/
def fullItemPage : List (Except RSError RawPage) :=
  [Except.ok { posts := [fullItem], after := none }]

/-- C5: the query builder returns the base query (wildcard `*` when the base
query is empty) followed by each modifier rendered in mapping iteration
order, joined by the literal separator " AND "; `title`/`selftext` values
are quoted; in particular `build("", {})` returns `"*"`. -/
theorem C5_query_builder :
    buildQueryString "" [] = "*" ∧
    buildQueryString "q" [("self", PyVal.vBool true)] = "q AND self:true" ∧
    buildQueryString "q" [("title", PyVal.vStr "a b")] = "q AND title:\"a b\"" ∧
    buildQueryString "q" [("selftext", PyVal.vStr "x")] = "q AND selftext:\"x\"" ∧
    buildQueryString "" [("subreddit", PyVal.vStr "python"), ("self", PyVal.vBool true)] =
      "* AND subreddit:python AND self:true" ∧
    ∀ (baseQuery : String) (modifiers : List (String × PyVal)),
      buildQueryString baseQuery modifiers =
        String.intercalate " AND "
          ((if baseQuery = "" then "*" else baseQuery) :: modifiers.map formatModifier) := by
  refine ⟨by decide, by decide, by decide, by decide, by decide, ?_⟩
  intro baseQuery modifiers
  by_cases h : baseQuery = "" <;> simp [buildQueryString, h]

/-- C6 as stated is false: a boolean modifier value under a key other than
`self` renders via Python `str()`, which capitalizes (`nsfw:True`). -/
theorem C6_counterexample :
    buildQueryString "q" [("nsfw", PyVal.vBool true)] = "q AND nsfw:True" ∧
    "q AND nsfw:True" ≠ "q AND nsfw:true" := by decide

/-- C6 amended: a boolean modifier value renders lowercase only under the
key `self`; under any other unquoted key it renders capitalized
(`True`/`False`), Python's plain string form. -/
theorem C6_bool_render (k : String) (b : Bool)
    (ht : k ≠ "title") (hs : k ≠ "selftext") :
    formatModifier (k, PyVal.vBool b) =
      (if k = "self" then k ++ ":" ++ (if b then "true" else "false")
       else k ++ ":" ++ (if b then "True" else "False")) := by
  by_cases hself : k = "self"
  · subst hself; cases b <;> decide
  · cases b <;> simp [formatModifier, ht, hs, hself, pyStr]

theorem C6_bool_render_witness :
    ("nsfw" : String) ≠ "title" ∧ ("nsfw" : String) ≠ "selftext" ∧
    formatModifier ("nsfw", PyVal.vBool true) = "nsfw:True" := by
  refine ⟨by decide, by decide, ?_⟩
  have h := C6_bool_render "nsfw" true (by decide) (by decide)
  simpa using h

/-- C3: per page fetch, errors map in order: HTTP 401 to the authentication
error; any other non-200 status to the API error carrying status code and
raw body text; transport connect/request failures to the connection error;
any other exception is wrapped generically, so the caller never sees a
validation error (nor any raw low-level exception) out of `_raw_search`. -/
theorem C3_transport_error_taxonomy :
    (∀ (text : String) (body : Except String (List (String × JValue))),
      rawSearchResult (HttpOutcome.response 401 text body) =
        Except.error (RSError.authentication "Invalid API key")) ∧
    (∀ (statusCode : Int) (text : String) (body : Except String (List (String × JValue))),
      statusCode ≠ 401 → statusCode ≠ 200 →
      rawSearchResult (HttpOutcome.response statusCode text body) =
        Except.error (RSError.api statusCode text)) ∧
    (∀ m : String, rawSearchResult (HttpOutcome.connectError m) =
      Except.error (RSError.connection ("Failed to connect to the API: " ++ m))) ∧
    (∀ m : String, rawSearchResult (HttpOutcome.requestError m) =
      Except.error (RSError.connection ("Request error: " ++ m))) ∧
    (∀ m : String, rawSearchResult (HttpOutcome.otherError m) =
      Except.error (RSError.generic ("An unexpected error occurred: " ++ m))) ∧
    (∀ (o : HttpOutcome) (e : RSError),
      rawSearchResult o = Except.error e → RSError.isValidation e = false) := by
  refine ⟨?_, ?_, ?_, ?_, ?_, ?_⟩
  · intro text body; simp [rawSearchResult]
  · intro statusCode text body h1 h2; simp [rawSearchResult, h1, h2]
  · intro m; rfl
  · intro m; rfl
  · intro m; rfl
  · intro o e h
    cases o with
    | response statusCode text body =>
      simp only [rawSearchResult] at h
      split at h
      · injection h with h2; subst h2; rfl
      · split at h
        · injection h with h2; subst h2; rfl
        · cases body with
          | ok j => simp at h
          | error m => injection h with h2; subst h2; rfl
    | connectError m =>
      simp only [rawSearchResult] at h; injection h with h2; subst h2; rfl
    | requestError m =>
      simp only [rawSearchResult] at h; injection h with h2; subst h2; rfl
    | otherError m =>
      simp only [rawSearchResult] at h; injection h with h2; subst h2; rfl

theorem C3_transport_witness :
    (500 : Int) ≠ 401 ∧ (500 : Int) ≠ 200 ∧
    rawSearchResult (HttpOutcome.response 500 "Internal server error" (Except.ok [])) =
      Except.error (RSError.api 500 "Internal server error") :=
  ⟨by decide, by decide,
    C3_transport_error_taxonomy.2.1 500 "Internal server error" (Except.ok [])
      (by decide) (by decide)⟩

/-- A raw item missing a required field fails single-item pydantic
validation, with the field among the reported missing ones. -/
theorem validateRedditPost_error_of_missing (item : RawPost) (k : String)
    (hk : k ∈ requiredRedditPostFields)
    (hmiss : item.find? (fun kv => kv.1 = k) = none) :
    ∃ missing, validateRedditPost item = Except.error missing ∧ k ∈ missing := by
  unfold validateRedditPost
  have hmem : k ∈ requiredRedditPostFields.filter
      (fun j => item.find? (fun kv => kv.1 = j) = none) := by
    rw [List.mem_filter]
    exact ⟨hk, by simp [hmiss]⟩
  have hne : requiredRedditPostFields.filter
      (fun j => item.find? (fun kv => kv.1 = j) = none) ≠ [] := by
    intro h0
    rw [h0] at hmem
    exact absurd hmem (List.not_mem_nil k)
  refine ⟨_, ?_, hmem⟩
  simp only [if_neg hne]

/-- C7 as stated is false at two points of the source. First, a missing
`selftext` defaults to `None`, not the empty string (`data.get("selftext")`
has no default). Second, an item missing a field can fail the whole
search: `search` never calls the normalizer — its items stay raw dicts —
and `SearchResponse(posts=...)` validation requires nearly every field, so
a successfully fetched page holding an item with only an `id` makes the
entire inline search raise. -/
theorem C7_counterexample :
    (fromApiResponse (fun _ => "") []).selftext = JValue.null ∧
    JValue.null ≠ JValue.str "" ∧
    (searchFlow st0 id defaultArgs sparsePage "out.json").result =
      Except.error (FlowError.validationError
        ["subreddit", "title", "author", "score", "upvote_ratio",
         "num_comments", "created_utc", "url", "permalink", "is_self",
         "is_video", "created_at_iso"]) := by decide

/-- C7 amended: the designated normalizer `from_api_response` is total,
retains the verbatim item in `raw_data`, and gives every missing field an
explicit default — numerics 0 (or 0.0), required strings the empty string,
booleans false — except the optional body text `selftext`, which defaults
to `None` rather than the empty string. The search flow, however, never
invokes this normalizer: collected items stay raw dicts, single-item
validation fails for any missing required field, list validation fails if
any item does, and an inline search whose collected items fail validation
aborts as a whole with the pydantic error. -/
theorem C7_normalizer_defaults :
    (∀ (isoOf : JValue → String) (d : RawPost),
      (fromApiResponse isoOf d).raw_data = d ∧
      (d.find? (fun kv => kv.1 = "id") = none →
        (fromApiResponse isoOf d).id = JValue.str "") ∧
      (d.find? (fun kv => kv.1 = "subreddit") = none →
        (fromApiResponse isoOf d).subreddit = JValue.str "") ∧
      (d.find? (fun kv => kv.1 = "title") = none →
        (fromApiResponse isoOf d).title = JValue.str "") ∧
      (d.find? (fun kv => kv.1 = "selftext") = none →
        (fromApiResponse isoOf d).selftext = JValue.null) ∧
      (d.find? (fun kv => kv.1 = "author") = none →
        (fromApiResponse isoOf d).author = JValue.str "") ∧
      (d.find? (fun kv => kv.1 = "score") = none →
        (fromApiResponse isoOf d).score = JValue.num 0) ∧
      (d.find? (fun kv => kv.1 = "upvote_ratio") = none →
        RedditPost.upvoteRate (fromApiResponse isoOf d) = JValue.num 0) ∧
      (d.find? (fun kv => kv.1 = "num_comments") = none →
        (fromApiResponse isoOf d).num_comments = JValue.num 0) ∧
      (d.find? (fun kv => kv.1 = "created_utc") = none →
        (fromApiResponse isoOf d).created_utc = JValue.num 0) ∧
      (d.find? (fun kv => kv.1 = "url") = none →
        (fromApiResponse isoOf d).url = JValue.str "") ∧
      (d.find? (fun kv => kv.1 = "permalink") = none →
        (fromApiResponse isoOf d).permalink = JValue.str "") ∧
      (d.find? (fun kv => kv.1 = "is_self") = none →
        (fromApiResponse isoOf d).is_self = JValue.bool false) ∧
      (d.find? (fun kv => kv.1 = "is_video") = none →
        (fromApiResponse isoOf d).is_video = JValue.bool false)) ∧
    (∀ (item : RawPost) (k : String),
      k ∈ requiredRedditPostFields →
      item.find? (fun kv => kv.1 = k) = none →
      ∃ missing, validateRedditPost item = Except.error missing ∧ k ∈ missing) ∧
    (∀ (items : List RawPost) (item : RawPost),
      item ∈ items →
      (∃ k, k ∈ requiredRedditPostFields ∧
        item.find? (fun kv => kv.1 = k) = none) →
      ∃ missing, validateAllPosts items = Except.error missing) ∧
    (∀ (st : ClientState) (expandUser : String → String) (a : SearchArgs)
        (script : List (Except RSError RawPage)) (genFilename : String)
        (items : List RawPost) (calls : Nat) (missing : List String),
      a.return_mode = "inline" →
      validateParameters a.sort a.timeframe a.return_mode = Except.ok () →
      searchLoopRaw script a.max_results [] 0 0 = (Except.ok items, calls) →
      validateAllPosts items = Except.error missing →
      (searchFlow st expandUser a script genFilename).result =
        Except.error (FlowError.validationError missing)) := by
  refine ⟨?_, ?_, ?_, ?_⟩
  · intro isoOf d
    refine ⟨rfl, ?_, ?_, ?_, ?_, ?_, ?_, ?_, ?_, ?_, ?_, ?_, ?_, ?_⟩
    all_goals intro h
    all_goals simp [fromApiResponse, pyGet, h]
  · exact validateRedditPost_error_of_missing
  · intro items
    induction items with
    | nil =>
      intro item hmem _
      exact absurd hmem (List.not_mem_nil item)
    | cons d rest ih =>
      intro item hmem hbad
      obtain ⟨k, hk, hmiss⟩ := hbad
      rcases List.mem_cons.mp hmem with heq | hmem2
      · subst heq
        obtain ⟨m, hm, _⟩ := validateRedditPost_error_of_missing item k hk hmiss
        exact ⟨m, by simp [validateAllPosts, hm]⟩
      · rcases hd : validateRedditPost d with m | p
        · exact ⟨m, by simp [validateAllPosts, hd]⟩
        · obtain ⟨m, hm⟩ := ih item hmem2 ⟨k, hk, hmiss⟩
          exact ⟨m, by simp [validateAllPosts, hd, hm]⟩
  · intro st expandUser a script genFilename items calls missing hmode hv hloop hbad
    unfold searchFlow
    rw [hv]
    dsimp only
    rw [hloop]
    dsimp only
    rw [if_neg (show ¬a.return_mode = "file" by simp [hmode])]
    rw [hbad]

theorem C7_normalizer_witness :
    ([] : RawPost).find? (fun kv => kv.1 = "selftext") = none ∧
    (fromApiResponse (fun _ => "") []).selftext = JValue.null ∧
    (fromApiResponse (fun _ => "") []).raw_data = [] ∧
    (searchFlow st0 id defaultArgs sparsePage "out.json").result =
      Except.error (FlowError.validationError
        ["subreddit", "title", "author", "score", "upvote_ratio",
         "num_comments", "created_utc", "url", "permalink", "is_self",
         "is_video", "created_at_iso"]) := by
  refine ⟨rfl, (C7_normalizer_defaults.1 (fun _ => "") []).2.2.2.2.1 rfl,
    (C7_normalizer_defaults.1 (fun _ => "") []).1, ?_⟩
  exact C7_normalizer_defaults.2.2.2 st0 id defaultArgs sparsePage "out.json"
    [[("id", JValue.str "abc")]] 1 _ rfl (by decide) (by decide) (by decide)

/-- For a nonnegative bound the Python slice `l[:m]` is `take`. -/
theorem pySliceTo_of_nonneg {α : Type} (l : List α) (m : Int) (h : 0 ≤ m) :
    pySliceTo l m = l.take m.toNat := by
  simp [pySliceTo, h]

/-- C1: the pagination loop appends each page's items in page order and
within-page order; it continues exactly when the page yielded a (truthy)
cursor and a nonempty item list, and stops otherwise; on the spec's
two-page scenario `search` returns all 4 items in original order with
exactly 2 upstream calls. -/
theorem C1_pagination_order_and_stop :
    (∀ (p1 p2 : Page) (rest : List (Except RSError Page)),
      truthyOptStr p1.after = true → p1.posts ≠ [] →
      (truthyOptStr p2.after = false ∨ p2.posts = []) →
      searchLoop (Except.ok p1 :: Except.ok p2 :: rest) none [] 0 0 =
        (Except.ok (p1.posts ++ p2.posts), 2)) ∧
    (∀ (p : Page) (rest : List (Except RSError Page)),
      (truthyOptStr p.after = false ∨ p.posts = []) →
      searchLoop (Except.ok p :: rest) none [] 0 0 = (Except.ok p.posts, 1)) ∧
    (∀ (p : Page) (rest : List (Except RSError Page))
        (acc : List RedditPost) (total calls : Nat),
      truthyOptStr p.after = true → p.posts ≠ [] →
      searchLoop (Except.ok p :: rest) none acc total calls =
        searchLoop rest none (acc ++ p.posts) (total + p.posts.length) (calls + 1)) ∧
    search st0 id defaultArgs twoPages "out.json" =
      { result := Except.ok
          { success := true, count := 4,
            posts := some [mkPost 1, mkPost 2, mkPost 3, mkPost 4],
            file_path := none },
        finalState := st0, calls := 2, written := none } := by
  refine ⟨?_, ?_, ?_, by decide⟩
  · intro p1 p2 rest h1 h2 h3
    rcases h3 with h3 | h3 <;> simp [searchLoop, capHitB, h1, h2, h3]
  · intro p rest h
    rcases h with h | h <;> simp [searchLoop, capHitB, h]
  · intro p rest acc total calls h1 h2
    simp [searchLoop, capHitB, h1, h2]

theorem C1_pagination_witness :
    truthyOptStr (some "c1") = true ∧
    ([mkPost 1, mkPost 2] : List RedditPost) ≠ [] ∧
    truthyOptStr (none : Option String) = false ∧
    searchLoop twoPages none [] 0 0 =
      (Except.ok [mkPost 1, mkPost 2, mkPost 3, mkPost 4], 2) := by
  refine ⟨by decide, by decide, by decide, ?_⟩
  have h := C1_pagination_order_and_stop.1
    { posts := [mkPost 1, mkPost 2], after := some "c1" }
    { posts := [mkPost 3, mkPost 4], after := none } []
    (by decide) (by decide) (Or.inl (by decide))
  simpa [twoPages] using h

/-- C2: with a positive result cap `m`, as soon as the collected count
reaches or exceeds `m` the loop returns exactly the first `m` collected
items (tail of the same page dropped) and stops issuing calls; on the
spec's two-page scenario with `max_results = 3`, `search` returns exactly
the first 3 items in original order. -/
theorem C2_cap_truncation :
    (∀ (page : Page) (rest : List (Except RSError Page)) (acc : List RedditPost)
        (total calls : Nat) (m : Int),
      0 < m → total = acc.length →
      m ≤ ((total + page.posts.length : Nat) : Int) →
      searchLoop (Except.ok page :: rest) (some m) acc total calls =
        (Except.ok ((acc ++ page.posts).take m.toNat), calls + 1) ∧
      ((acc ++ page.posts).take m.toNat).length = m.toNat) ∧
    (search st0 id { defaultArgs with max_results := some 3 } twoPages "out.json").result =
      Except.ok
        { success := true, count := 3,
          posts := some [mkPost 1, mkPost 2, mkPost 3], file_path := none } ∧
    (search st0 id { defaultArgs with max_results := some 3 } twoPages "out.json").calls = 2 := by
  refine ⟨?_, by decide, by decide⟩
  intro page rest acc total calls m hm hacc hreach
  have hcap : capHitB (some m) (total + page.posts.length) = true := by
    simp only [capHitB, Bool.and_eq_true, decide_eq_true_eq]
    exact ⟨by omega, hreach⟩
  constructor
  · simp [searchLoop, hcap, pySliceTo_of_nonneg _ _ hm.le]
  · have hlen : m.toNat ≤ (acc ++ page.posts).length := by
      rw [List.length_append]
      omega
    simp [List.length_take]
    omega

theorem C2_cap_witness :
    (0 : Int) < 3 ∧
    searchLoop twoPages (some 3) [] 0 0 =
      (Except.ok [mkPost 1, mkPost 2, mkPost 3], 2) := by
  refine ⟨by decide, ?_⟩
  have hstep := (C2_cap_truncation.1
    { posts := [mkPost 3, mkPost 4], after := none } []
    [mkPost 1, mkPost 2] 2 1 3 (by decide) (by decide) (by decide)).1
  have h1 : searchLoop twoPages (some 3) [] 0 0 =
      searchLoop [Except.ok { posts := [mkPost 3, mkPost 4], after := none }]
        (some 3) [mkPost 1, mkPost 2] 2 1 := by
    decide
  rw [h1, hstep]
  decide

/-- C10: `max_results = 0` is falsy in the cap check, so a zero cap behaves
exactly like an absent cap: pagination runs to upstream exhaustion and all
collected items are returned, not an empty result. -/
theorem C10_zero_cap_means_uncapped :
    (∀ (script : List (Except RSError Page)) (acc : List RedditPost)
        (total calls : Nat),
      searchLoop script (some 0) acc total calls =
        searchLoop script none acc total calls) ∧
    search st0 id { defaultArgs with max_results := some 0 } twoPages "out.json" =
      search st0 id defaultArgs twoPages "out.json" ∧
    (search st0 id { defaultArgs with max_results := some 0 } twoPages "out.json").result =
      Except.ok
        { success := true, count := 4,
          posts := some [mkPost 1, mkPost 2, mkPost 3, mkPost 4],
          file_path := none } := by
  refine ⟨?_, by decide, by decide⟩
  intro script
  induction script with
  | nil => intro acc total calls; rfl
  | cons r rest ih =>
    intro acc total calls
    cases r with
    | error e => rfl
    | ok page =>
      by_cases hc : truthyOptStr page.after = false ∨ page.posts = []
      · simp [searchLoop, capHitB, hc]
      · simp [searchLoop, capHitB, hc, ih]

/-- C4: an out-of-enum `sort`, `timeframe` or `return_mode` raises the
validation error before any network activity: the call issues zero
upstream HTTP calls. -/
theorem C4_validation_before_network (st : ClientState) (expandUser : String → String)
    (a : SearchArgs) (script : List (Except RSError Page)) (genFilename : String)
    (h : a.sort ∉ VALID_SORT_OPTIONS ∨ a.timeframe ∉ VALID_TIMEFRAME_OPTIONS ∨
      a.return_mode ∉ VALID_RETURN_MODES) :
    (∃ msg, (search st expandUser a script genFilename).result =
      Except.error (RSError.validation msg)) ∧
    (search st expandUser a script genFilename).calls = 0 := by
  have hv : ∃ msg, validateParameters a.sort a.timeframe a.return_mode =
      Except.error (RSError.validation msg) := by
    by_cases hs : a.sort ∈ VALID_SORT_OPTIONS
    · by_cases ht : a.timeframe ∈ VALID_TIMEFRAME_OPTIONS
      · rcases h with h | h | h
        · exact absurd hs h
        · exact absurd ht h
        · exact ⟨"Invalid return mode: " ++ a.return_mode ++ ". Valid options are: " ++
            String.intercalate ", " VALID_RETURN_MODES,
            by simp [validateParameters, hs, ht, h]⟩
      · exact ⟨"Invalid timeframe option: " ++ a.timeframe ++ ". Valid options are: " ++
          String.intercalate ", " VALID_TIMEFRAME_OPTIONS,
          by simp [validateParameters, hs, ht]⟩
    · exact ⟨"Invalid sort option: " ++ a.sort ++ ". Valid options are: " ++
        String.intercalate ", " VALID_SORT_OPTIONS,
        by simp [validateParameters, hs]⟩
  obtain ⟨msg, hv⟩ := hv
  refine ⟨⟨msg, ?_⟩, ?_⟩
  · unfold search
    rw [hv]
  · unfold search
    rw [hv]

theorem C4_validation_witness :
    ("hot" : String) ∉ VALID_SORT_OPTIONS ∧
    (search st0 id { defaultArgs with sort := "hot" } twoPages "out.json").calls = 0 := by
  refine ⟨by decide, ?_⟩
  exact (C4_validation_before_network st0 id { defaultArgs with sort := "hot" }
    twoPages "out.json" (Or.inl (by decide))).2

/-- C9: a per-call `output_dir` override is scoped to that single call: on
every exit path (validation failure, transport error, or success in either
mode) the client's configured output directory is restored, so the final
client state always equals the initial one. -/
theorem C9_output_dir_restored (st : ClientState) (expandUser : String → String)
    (a : SearchArgs) (script : List (Except RSError Page)) (genFilename : String) :
    (search st expandUser a script genFilename).finalState = st := by
  obtain ⟨d⟩ := st
  unfold search
  rcases hv : validateParameters a.sort a.timeframe a.return_mode with e | u
  · rfl
  · rcases hsl : searchLoop script a.max_results [] 0 0 with ⟨res, calls⟩
    by_cases ho : truthyArg a.output_dir
    · cases res with
      | error e => simp [hsl, ho]
      | ok allResults =>
        by_cases hf : a.return_mode = "file" <;> simp [hsl, ho, hf]
    · cases res with
      | error e => simp [hsl, ho]
      | ok allResults =>
        by_cases hf : a.return_mode = "file" <;> simp [hsl, ho, hf]

/-- Pydantic list validation preserves the item count on success. -/
theorem validateAllPosts_length (l : List RawPost) (ps : List RedditPost)
    (h : validateAllPosts l = Except.ok ps) : ps.length = l.length := by
  induction l generalizing ps with
  | nil =>
    simp only [validateAllPosts] at h
    injection h with h2
    subst h2
    rfl
  | cons d rest ih =>
    simp only [validateAllPosts] at h
    rcases hd : validateRedditPost d with m | p
    · rw [hd] at h
      simp at h
    · rw [hd] at h
      rcases hr : validateAllPosts rest with m | qs
      · rw [hr] at h
        simp at h
      · rw [hr] at h
        injection h with h2
        subst h2
        simp [ih qs hr]

/-- C8: a successful `search` returns a tagged union: in inline mode
`posts` is populated and `file_path` unset with `count` the length of
`posts`; in file mode `file_path` is populated and `posts` unset with
`count` the number of records written to the file — never both. (In the
source a nonempty file-mode result aborts on `post.raw_data` before
writing, so file-mode success reports exactly the written records — zero
of them.) -/
theorem C8_response_tagged_union (st : ClientState) (expandUser : String → String)
    (a : SearchArgs) (script : List (Except RSError RawPage)) (genFilename : String)
    (r : SearchResponseM)
    (h : (searchFlow st expandUser a script genFilename).result = Except.ok r) :
    r.success = true ∧
    (a.return_mode = "file" →
      r.posts = none ∧
      ∃ filePath records,
        r.file_path = some filePath ∧
        (searchFlow st expandUser a script genFilename).written = some (filePath, records) ∧
        r.count = records.length) ∧
    (a.return_mode = "inline" →
      r.file_path = none ∧
      (searchFlow st expandUser a script genFilename).written = none ∧
      ∃ posts, r.posts = some posts ∧ r.count = posts.length) := by
  unfold searchFlow at h ⊢
  rcases hv : validateParameters a.sort a.timeframe a.return_mode with e | u
  · rw [hv] at h
    simp at h
  · rw [hv] at h
    rcases hsl : searchLoopRaw script a.max_results [] 0 0 with ⟨res, calls⟩
    rw [hsl] at h
    cases res with
    | error e =>
      dsimp only at h
      simp at h
    | ok allResults =>
      dsimp only at h ⊢
      by_cases hf : a.return_mode = "file"
      · rw [if_pos hf] at h ⊢
        cases allResults with
        | nil =>
          dsimp only at h ⊢
          injection h with h2
          subst h2
          refine ⟨rfl, fun _ => ⟨rfl, _, [], rfl, rfl, rfl⟩, fun hi => ?_⟩
          rw [hi] at hf
          exact absurd hf (by decide)
        | cons d ds =>
          dsimp only at h
          simp at h
      · rw [if_neg hf] at h ⊢
        rcases hvp : validateAllPosts allResults with m | ps
        · rw [hvp] at h
          dsimp only at h
          simp at h
        · rw [hvp] at h
          dsimp only at h ⊢
          injection h with h2
          subst h2
          refine ⟨rfl, fun hfile => absurd hfile hf, fun _ => ?_⟩
          exact ⟨rfl, rfl, ps, rfl, (validateAllPosts_length allResults ps hvp).symm⟩

theorem C8_tagged_union_witness :
    (searchFlow st0 id fileArgs emptyRawPage "out.json").result =
      Except.ok
        { success := true, count := 0, posts := none,
          file_path := some "/home/u/out.json" } ∧
    ({ success := true, count := 0, posts := none,
       file_path := some "/home/u/out.json" } : SearchResponseM).posts = none ∧
    (searchFlow st0 id defaultArgs fullItemPage "out.json").result =
      Except.ok
        { success := true, count := 1,
          posts := some [RedditPost.mk (JValue.str "abc123") (JValue.str "test")
            (JValue.str "Test Post") (JValue.str "Test Content")
            (JValue.str "testuser") (JValue.num 42) (JValue.num 1)
            (JValue.num 10) (JValue.num 1234567890)
            (JValue.str "https://reddit.com/r/test/comments/abc123")
            (JValue.str "/r/test/comments/abc123") (JValue.bool true)
            (JValue.bool false) (JValue.str "2009-02-13T23:31:30") []],
          file_path := none } ∧
    ({ success := true, count := 1,
       posts := some [RedditPost.mk (JValue.str "abc123") (JValue.str "test")
         (JValue.str "Test Post") (JValue.str "Test Content")
         (JValue.str "testuser") (JValue.num 42) (JValue.num 1)
         (JValue.num 10) (JValue.num 1234567890)
         (JValue.str "https://reddit.com/r/test/comments/abc123")
         (JValue.str "/r/test/comments/abc123") (JValue.bool true)
         (JValue.bool false) (JValue.str "2009-02-13T23:31:30") []],
       file_path := none } : SearchResponseM).file_path = none := by
  refine ⟨by decide, ?_, by decide, ?_⟩
  · exact ((C8_response_tagged_union st0 id fileArgs emptyRawPage "out.json" _
      (by decide)).2.1 rfl).1
  · exact ((C8_response_tagged_union st0 id defaultArgs fullItemPage "out.json" _
      (by decide)).2.2 rfl).1
